import Mathlib

/-!
Verification development for the selfie2bitmoji training-graph assembly
(`models/s2b_model.py`, class `Selfie2BitmojiModel`).

The Python file builds a TensorFlow graph from five sub-networks (face
encoder, generator, discriminator, parameter encoder, avatar synthesizer)
and six scalar losses.  We embed, directly from the source:

* the per-stage layer configuration each builder method emits
  (`_generator`, `_discriminator`, `_avatar_synth`), including activation
  choice, batch-norm / dropout placement and the `trainable` flag each
  layer constructor receives;
* the value-level loss formulas of `_build_graph` (lines 54-96);
* the parameter-encoder head (flatten / split / per-segment softmax /
  concat, lines 284-288);
* the face-encoder sampling expression (lines 139-143) and the
  graph-construction freshness of its `tf.random_normal` node;
* the Python attribute semantics of the `self.preds` read inside
  `_avatar_synth` (line 324-325);
* the TensorFlow variable-scope reuse semantics that decide how the
  generator's `FC` projection variables are shared between the two
  `_generator` call sites of one training step.

The architecture descriptors live in `model_architectures.py`, which is
not part of the sources at hand; following the specification they are
ordered lists of (output-channel-count, kernel-width, stride,
padding-mode), so every theorem is stated for an arbitrary descriptor.
Real-valued tensor arithmetic is embedded polymorphically over a field,
with `exp`, `log`, `sqrt` passed as functions, and instantiated at `ℝ`
with `Real.exp`, `Real.log`, `Real.sqrt` in the theorems.
-/

namespace S2B

/-- Padding modes of the per-stage architecture descriptors
(`'SAME'` / `'VALID'` strings in TensorFlow). -/
inductive Pad where
  | same : Pad
  | valid : Pad
deriving DecidableEq, Repr

/-- Activation functions that appear in `s2b_model.py`. `linear` stands
for "no activation" (e.g. `tf.layers.batch_normalization`). -/
inductive Activation where
  | relu : Activation
  | tanh : Activation
  | sigmoid : Activation
  | leakyRelu : Activation
  | linear : Activation
deriving DecidableEq, Repr

/-- The kinds of layer constructors invoked by the model code. -/
inductive LayerKind where
  | dense : LayerKind
  | conv2d : LayerKind
  | conv2dTranspose : LayerKind
  | batchNorm : LayerKind
  | dropout : LayerKind
deriving DecidableEq, Repr

/-- One constructed layer: the configuration the Python code passes to the
corresponding `tf.layers.*` constructor.  `trainable` records the
`trainable=` keyword (TensorFlow's default is `True` when the keyword is
absent). -/
structure Layer where
  kind : LayerKind
  filters : ℕ
  width : ℕ
  stride : ℕ
  pad : Pad
  activation : Activation
  trainable : Bool
deriving DecidableEq, Repr

/-- Modelled from the spec: the architecture descriptors live in
`model_architectures.py`, which is not among the sources at hand; per the
specification each is an ordered list of (output-channel-count,
kernel-width, stride, padding-mode).  Fields are named after the keys the
builder methods read: `arch['conv_filters']`, `arch['filter_widths']`,
`arch['strides']`, `arch['padding']`. -/
structure Arch where
  conv_filters : List ℕ
  filter_widths : List ℕ
  strides : List ℕ
  padding : List Pad
deriving DecidableEq, Repr

/-- The descriptors of `model_architectures` that `s2b_model.py` reads:
`archs.generator_model` (line 157), `archs.avatar_synth_model`
(lines 217 and 304) and `archs.param_encoder_model` (line 256).  No other
architecture descriptor is referenced by the model file; in particular
`_discriminator` reads `avatar_synth_model`. -/
structure Archs where
  generator_model : Arch
  avatar_synth_model : Arch
  param_encoder_model : Arch
deriving DecidableEq, Repr

/-- A deconvolution stage of `_generator` / `_avatar_synth`: the
deconvolution layer, its same-resolution refinement layer, the optional
interior batch-norm layer and whether dropout is applied. -/
structure Stage where
  deconv : Layer
  refine : Layer
  bn : Option Layer
  dropout : Bool
deriving DecidableEq, Repr

/-- A convolution stage of `_discriminator` / `_param_encoder`. -/
structure DStage where
  conv : Layer
  bn : Option Layer
  dropout : Bool
deriving DecidableEq, Repr

/-- `tf.layers.batch_normalization(preds, name='BN_i')`: no `trainable=`
keyword is passed, so TensorFlow's default `trainable=True` applies. -/
def bnDefault : Layer :=
  { kind := LayerKind.batchNorm, filters := 0, width := 0, stride := 0,
    pad := Pad.same, activation := Activation.linear, trainable := true }

/-- Stage `i` of the loop of `_generator` (lines 170-203).
`activation = tf.nn.relu`, replaced by `tf.nn.tanh` when
`i == len(arch['conv_filters']) - 2`; the deconvolution (line 176) uses
that activation, the refinement `conv2d_transpose` with kernel 1 and
stride 1 (line 188) always uses `tf.nn.relu`; batch norm and dropout are
applied only when `i < len(arch['conv_filters']) - 2` (line 201). -/
def genStage (arch : Arch) (i : ℕ) : Stage :=
  let n := arch.conv_filters.length
  let act : Activation := if i = n - 2 then Activation.tanh else Activation.relu
  { deconv := { kind := LayerKind.conv2dTranspose,
                filters := arch.conv_filters.getD (i + 1) 0,
                width := arch.filter_widths.getD i 0,
                stride := arch.strides.getD i 0,
                pad := arch.padding.getD i Pad.same,
                activation := act, trainable := true },
    refine := { kind := LayerKind.conv2dTranspose,
                filters := arch.conv_filters.getD (i + 1) 0,
                width := 1, stride := 1, pad := Pad.same,
                activation := Activation.relu, trainable := true },
    bn := if i < n - 2 then some bnDefault else none,
    dropout := decide (i < n - 2) }

/-- The stages of `_generator`: the loop `for i in xrange(len(arch['conv_filters']) - 1)`
over `archs.generator_model`. -/
def generatorStages (A : Archs) : List Stage :=
  (List.range (A.generator_model.conv_filters.length - 1)).map
    (genStage A.generator_model)

/-- The initial fully-connected projection of `_generator`
(`tf.layers.dense(..., activation=tf.nn.relu, name='FC', reuse=False)`,
line 161). -/
def denseFC : Layer :=
  { kind := LayerKind.dense, filters := 0, width := 0, stride := 0,
    pad := Pad.same, activation := Activation.relu, trainable := true }

/-- The tensorpack `Dropout` application (`tpDropout(preds, keep_prob)`,
line 203). -/
def dropoutLayer : Layer :=
  { kind := LayerKind.dropout, filters := 0, width := 0, stride := 0,
    pad := Pad.same, activation := Activation.linear, trainable := true }

/-- The layers one stage contributes to the computation, in application
order: deconvolution, refinement, then (when present) batch norm and
dropout. -/
def stageChunk (s : Stage) : List Layer :=
  [s.deconv, s.refine] ++ s.bn.toList ++
    (if s.dropout then [dropoutLayer] else [])

/-- The full ordered layer sequence `_generator` emits: the `FC`
projection, then for each stage the deconvolution, the refinement layer,
and (interior stages only) batch norm and dropout. -/
def generatorCompute (A : Archs) : List Layer :=
  denseFC :: (generatorStages A).flatMap stageChunk

/-- Stage `i` of the loop of `_avatar_synth` (lines 308-339).  The
deconvolution (line 314) passes `activation=tf.nn.relu` literally and
`trainable=False`; the refinement `conv2d_transpose` (line 324) uses the
computed activation (`tanh` on the last stage, `relu` otherwise) and
`trainable=False`; the interior batch norm (line 339) passes no
`trainable=` keyword, hence TensorFlow's default `trainable=True`. -/
def synthStage (arch : Arch) (i : ℕ) : Stage :=
  let n := arch.conv_filters.length
  let act : Activation := if i = n - 2 then Activation.tanh else Activation.relu
  { deconv := { kind := LayerKind.conv2dTranspose,
                filters := arch.conv_filters.getD (i + 1) 0,
                width := arch.filter_widths.getD i 0,
                stride := arch.strides.getD i 0,
                pad := arch.padding.getD i Pad.same,
                activation := Activation.relu, trainable := false },
    refine := { kind := LayerKind.conv2dTranspose,
                filters := arch.conv_filters.getD (i + 1) 0,
                width := 1, stride := 1, pad := Pad.same,
                activation := act, trainable := false },
    bn := if i < n - 2 then some bnDefault else none,
    dropout := false }

/-- The stages of `_avatar_synth`, built from `archs.avatar_synth_model`
(line 304). -/
def avatarSynthStages (A : Archs) : List Stage :=
  (List.range (A.avatar_synth_model.conv_filters.length - 1)).map
    (synthStage A.avatar_synth_model)

/-- Stage `i` of the loop of `_discriminator` (lines 220-241):
`tf.layers.conv2d` with leaky-ReLU activation (`sigmoid` on the last
stage), batch norm and dropout on interior stages. -/
def discStage (arch : Arch) (i : ℕ) : DStage :=
  let n := arch.conv_filters.length
  let act : Activation :=
    if i = n - 2 then Activation.sigmoid else Activation.leakyRelu
  { conv := { kind := LayerKind.conv2d,
              filters := arch.conv_filters.getD (i + 1) 0,
              width := arch.filter_widths.getD i 0,
              stride := arch.strides.getD i 0,
              pad := arch.padding.getD i Pad.same,
              activation := act, trainable := true },
    bn := if i < n - 2 then some bnDefault else none,
    dropout := decide (i < n - 2) }

/-- The stages of `_discriminator`.  Line 217 reads
`arch = archs.avatar_synth_model`: the discriminator is configured by the
avatar synthesizer's descriptor, not by a descriptor of its own. -/
def discriminatorStages (A : Archs) : List DStage :=
  (List.range (A.avatar_synth_model.conv_filters.length - 1)).map
    (discStage A.avatar_synth_model)

/-- The per-stage (filters, kernel width, stride, padding) configuration
of a convolution stage. -/
def dStageParams (s : DStage) : ℕ × ℕ × ℕ × Pad :=
  (s.conv.filters, s.conv.width, s.conv.stride, s.conv.pad)

/-- The per-stage (filters, kernel width, stride, padding) configuration
of a deconvolution stage. -/
def stageParams (s : Stage) : ℕ × ℕ × ℕ × Pad :=
  (s.deconv.filters, s.deconv.width, s.deconv.stride, s.deconv.pad)

/-- A representative concrete architecture descriptor (three stages). -/
def archEx : Arch :=
  { conv_filters := [832, 512, 256, 3],
    filter_widths := [4, 4, 4],
    strides := [1, 2, 2],
    padding := [Pad.valid, Pad.same, Pad.same] }

/-- A representative concrete configuration of all three descriptors. -/
def archsEx : Archs :=
  { generator_model := archEx,
    avatar_synth_model := archEx,
    param_encoder_model := archEx }

/-!  ## Value-level tensor arithmetic

The loss formulas of `_build_graph` and the head of `_param_encoder`,
embedded over an arbitrary field with the transcendental functions passed
as parameters; the theorems instantiate them at `ℝ`. -/

/-- `tf.reduce_mean` on a flat tensor: sum of the entries divided by
their number. -/
def mean {α : Type} [Field α] (xs : List α) : α :=
  xs.sum / (xs.length : α)

/-- `L_gan_d` (lines 80-82):
`tf.add(tf.reduce_mean(tf.log(1 - d_preds_real)), tf.reduce_mean(tf.log(d_preds_real)))`.
Both operands are built from `d_preds_real` alone. -/
def lGanD {α : Type} [Field α] (log : α → α) (dPredsReal : List α) : α :=
  mean (dPredsReal.map (fun p => log (1 - p))) + mean (dPredsReal.map log)

/-- `L_gan_g` (lines 83-85):
`tf.add(tf.reduce_mean(tf.log(1 - d_preds_fake)), tf.reduce_mean(tf.log(d_preds_fake)))`.
Both operands are built from `d_preds_fake` alone. -/
def lGanG {α : Type} [Field α] (log : α → α) (dPredsFake : List α) : α :=
  mean (dPredsFake.map (fun p => log (1 - p))) + mean (dPredsFake.map log)

/-- The two adversarial losses of one training step, as assembled by
`_build_graph` from the two discriminator prediction tensors
`d_preds_real = D(bitmoji_imgs)` and `d_preds_fake = D(gen_faces)`. -/
def ganLossAssembly {α : Type} [Field α] (log : α → α)
    (dPredsReal dPredsFake : List α) : α × α :=
  (lGanD log dPredsReal, lGanG log dPredsFake)

/-- An image batch of shape `(b, h, w, c)` (batch, height, width,
channels), as a function of its indices. -/
def Img (α : Type) (b h w c : ℕ) : Type :=
  Fin b → Fin h → Fin w → Fin c → α

/-- `tf.reduce_mean` over a 4-D tensor. -/
def tmean {α : Type} [Field α] {b h w c : ℕ} (g : Img α b h w c) : α :=
  (∑ i, ∑ y, ∑ x, ∑ k, g i y x k) / ((b * h * w * c : ℕ) : α)

/-- `gen_faces_left_shift` (lines 55-57):
`tf.concat([gen_faces[:, :, 1:, :], tf.zeros((batch, height, 1, channels))], axis=2)` —
the image shifted one pixel left, zero-padded in the last column. -/
def leftShift {α : Type} [Zero α] {b h w c : ℕ} (g : Img α b h w c) :
    Img α b h w c :=
  fun i y x k => if hx : (x : ℕ) + 1 < w then g i y ⟨(x : ℕ) + 1, hx⟩ k else 0

/-- `gen_faces_up_shift` (lines 58-60): the image shifted one pixel up,
zero-padded in the last row. -/
def upShift {α : Type} [Zero α] {b h w c : ℕ} (g : Img α b h w c) :
    Img α b h w c :=
  fun i y x k => if hy : (y : ℕ) + 1 < h then g i ⟨(y : ℕ) + 1, hy⟩ x k else 0

/-- `L_tv` (lines 94-96):
`tf.reduce_mean(tf.sqrt(tf.square(left_shift - gen) + tf.square(up_shift - gen)))`. -/
def lTv {α : Type} [Field α] (sqrt : α → α) {b h w c : ℕ}
    (g : Img α b h w c) : α :=
  tmean (fun i y x k =>
    sqrt ((leftShift g i y x k - g i y x k) ^ 2 +
          (upShift g i y x k - g i y x k) ^ 2))

/-- The horizontal differences between neighbouring pixels of an image
(zero where no right neighbour exists): the quantity the specification
says `L_tv` is determined by. -/
def hDiff {α : Type} [Zero α] [Sub α] {b h w c : ℕ} (g : Img α b h w c) :
    Img α b h w c :=
  fun i y x k =>
    if hx : (x : ℕ) + 1 < w then g i y ⟨(x : ℕ) + 1, hx⟩ k - g i y x k else 0

/-- The vertical differences between neighbouring pixels of an image
(zero where no lower neighbour exists). -/
def vDiff {α : Type} [Zero α] [Sub α] {b h w c : ℕ} (g : Img α b h w c) :
    Img α b h w c :=
  fun i y x k =>
    if hy : (y : ℕ) + 1 < h then g i ⟨(y : ℕ) + 1, hy⟩ x k - g i y x k else 0

/-- `tf.nn.softmax` on one segment: each entry is the exponential of the
input entry divided by the sum of the exponentials of the segment. -/
def softmax {α : Type} [Field α] (exp : α → α) (xs : List α) : List α :=
  xs.map (fun x => exp x / (xs.map exp).sum)

/-- `tf.split(preds, sizes, axis=1)`: cut a flat vector into consecutive
segments of the given sizes. -/
def splitSegments {α : Type} : List ℕ → List α → List (List α)
  | [], _ => []
  | n :: ns, xs => xs.take n :: splitSegments ns (xs.drop n)

/-- The head of `_param_encoder` (lines 284-288): flatten (already flat
here), split into the statically configured segments
(`BITMOJI_PARAM_SPLIT`), apply softmax to each segment independently, and
concatenate the segments back in order. -/
def paramEncoderHead {α : Type} [Field α] (exp : α → α)
    (sizes : List ℕ) (xs : List α) : List α :=
  ((splitSegments sizes xs).map (softmax exp)).flatten

/-- The sampling expression of `_face_encoder` (line 142):
`z_x = tf.add(z_mean, tf.sqrt(tf.exp(z_sigma)) * noise)` with
`noise = tf.random_normal(shape=(batch_size, FACE_ENCODING_SIZE))`,
elementwise over the batch and encoding dimensions. -/
def faceEncoderSample {α : Type} [Field α] (exp sqrt : α → α) {n d : ℕ}
    (zMean zSigma noise : Fin n → Fin d → α) : Fin n → Fin d → α :=
  fun i j => zMean i j + sqrt (exp (zSigma i j)) * noise i j

/-- Broadcasting of the leading (batch) dimension in `tf.add`: defined
when the two sizes agree or one of them is 1, undefined otherwise. -/
def broadcastBatch (n1 n2 : ℕ) : Option ℕ :=
  if n1 = n2 then some n1
  else if n1 = 1 then some n2
  else if n2 = 1 then some n1
  else none

/-- The batch dimension of `_face_encoder`'s output for an input batch of
`n` images when the CLI configuration is `args.batch_size = batchSize`:
`z_mean` has batch dimension `n`, while the noise tensor's shape is the
static `(self.args.batch_size, FACE_ENCODING_SIZE)` (line 143), so the
add at line 142 must broadcast `n` against `batchSize`. -/
def faceEncoderOutputBatch (batchSize n : ℕ) : Option ℕ :=
  broadcastBatch n batchSize

/-!  ## Symbolic graph construction and the `self.preds` attribute

`_avatar_synth` (lines 303-341) builds its stages in a Python loop.  The
local variable `preds` is threaded through the deconvolutions, but the
refinement convolution is written
`self.preds = tf.layers.conv2d_transpose(self.preds, ...)` (lines
324-325): the right-hand side reads the *attribute* `self.preds`.  In
Python the right-hand side is evaluated before the assignment, and the
attribute `preds` is never assigned anywhere else in the class
(`__init__` sets only `self.args`), so the first read raises
`AttributeError`.  We model tensors as symbolic expressions and the
attribute as an `Option`-valued cell. -/

/-- Symbolic tensor expressions built during graph construction. -/
inductive TExpr where
  | faceInput : TExpr
  | bitmojiInput : TExpr
  | faceEnc : TExpr → TExpr
  | gen : TExpr → TExpr
  | paramEnc : TExpr → TExpr
  | disc : TExpr → TExpr
  | reshape : TExpr → TExpr
  | deconv : ℕ → TExpr → TExpr
  | conv : ℕ → TExpr → TExpr
  | bn : ℕ → TExpr → TExpr
deriving DecidableEq, Repr

/-- The Python error raised when an unset attribute is read. -/
inductive PyError where
  | attributeError : PyError
deriving DecidableEq, Repr

/-- One iteration of the `_avatar_synth` loop at index `i` (with
`n = len(arch['conv_filters'])`).  State: (local `preds`, attribute
`self.preds`).  Line 314 rebinds the local to the deconvolution; lines
324-325 read `self.preds` — raising `AttributeError` when unset — and
assign the refinement convolution back to `self.preds`; line 339 applies
batch norm to the *local* `preds` on interior stages. -/
def avatarSynthIter (n : ℕ) (st : TExpr × Option TExpr) (i : ℕ) :
    Except PyError (TExpr × Option TExpr) :=
  let preds := TExpr.deconv i st.1
  match st.2 with
  | none => Except.error PyError.attributeError
  | some sp =>
    let preds2 := if i < n - 2 then TExpr.bn i preds else preds
    Except.ok (preds2, some (TExpr.conv i sp))

/-- `_avatar_synth params`: reshape `params` to a 1×1 map (line 307),
then run the stage loop.  `selfPreds` is the value of the attribute
`self.preds` when the method is entered (`none` = never assigned). -/
def avatarSynth (A : Archs) (selfPreds : Option TExpr) (params : TExpr) :
    Except PyError (TExpr × Option TExpr) :=
  let n := A.avatar_synth_model.conv_filters.length
  (List.range (n - 1)).foldlM (avatarSynthIter n)
    (TExpr.reshape params, selfPreds)

/-- The six loss tensors `_build_graph` would define (lines 69-96). -/
structure LossTensors where
  l_c : TExpr × TExpr
  l_const : TExpr × TExpr
  l_gan_d : TExpr
  l_gan_g : TExpr
  l_tid : TExpr × TExpr
  l_tv : TExpr
deriving DecidableEq, Repr

/-- `_build_graph` (lines 31-107) at the symbolic level, in source order:
the face-to-bitmoji pipeline (lines 41-44) — whose last step calls
`_avatar_synth` while the attribute `self.preds` is still unset — then
the discriminator predictions, auxiliary results, and the loss tensors.
The result is the record of loss tensors, or the Python error that
aborted construction. -/
def buildGraphSymbolic (A : Archs) : Except PyError LossTensors := do
  let face_encodings := TExpr.faceEnc TExpr.faceInput
  let gen_faces := TExpr.gen face_encodings
  let params := TExpr.paramEnc gen_faces
  let (avatar_synth_faces, _) ← avatarSynth A none params
  let d_preds_real := TExpr.disc TExpr.bitmojiInput
  let d_preds_fake := TExpr.disc gen_faces
  let gen_face_encodings := TExpr.faceEnc gen_faces
  let regen_bitmoji := TExpr.gen (TExpr.faceEnc TExpr.bitmojiInput)
  Except.ok
    { l_c := (gen_faces, avatar_synth_faces),
      l_const := (face_encodings, gen_face_encodings),
      l_gan_d := d_preds_real,
      l_gan_g := d_preds_fake,
      l_tid := (TExpr.bitmojiInput, regen_bitmoji),
      l_tv := gen_faces }

/-!  ## Variable scopes and reuse

`_generator` runs inside `tf.variable_scope('Generator',
reuse=tf.AUTO_REUSE)` (line 156) and creates its projection with
`tf.layers.dense(..., name='FC', reuse=False)` (lines 161-167).  In
TensorFlow 1.x, a scope's effective reuse flag is
`reuse or parent_reuse` — reuse is inherited by sub-scopes and a
sub-scope cannot disable it — so the falsy `reuse=False` inherits the
enclosing `AUTO_REUSE`.  Under `AUTO_REUSE`, `get_variable` returns the
existing variable when the name exists (with its shape validated) and
creates it otherwise.  We model the variable store as a list of
(full name, shape-signature) pairs. -/

/-- A TensorFlow 1.x reuse flag: `None`, `False`, `tf.AUTO_REUSE` or
`True`. -/
inductive ReuseFlag where
  | noneF : ReuseFlag
  | falseF : ReuseFlag
  | autoF : ReuseFlag
  | trueF : ReuseFlag
deriving DecidableEq, Repr

/-- `reuse or parent_reuse`: the effective reuse of a scope entered with
flag `child` inside a scope whose effective flag is `parent` (TensorFlow
variable_scope: re-using is inherited by sub-scopes). -/
def inheritReuse (child parent : ReuseFlag) : ReuseFlag :=
  match child with
  | ReuseFlag.noneF => parent
  | ReuseFlag.falseF => parent
  | ReuseFlag.autoF => ReuseFlag.autoF
  | ReuseFlag.trueF => ReuseFlag.trueF

/-- Errors `tf.get_variable` can raise. -/
inductive VarError where
  | alreadyExists : VarError
  | doesNotExist : VarError
  | shapeMismatch : VarError
deriving DecidableEq, Repr

/-- `tf.get_variable(name, shape)` under effective reuse flag `r`:
under `AUTO_REUSE` or `True` an existing variable of the right shape is
returned (a shape conflict is an error); a missing variable is an error
under `True` and is created otherwise; under a falsy flag an existing
variable is an "already exists" error. -/
def getVariable (store : List (String × ℕ)) (nm : String) (shape : ℕ)
    (r : ReuseFlag) : Except VarError (String × List (String × ℕ)) :=
  match store.lookup nm with
  | some sh =>
    match r with
    | ReuseFlag.autoF | ReuseFlag.trueF =>
      if sh = shape then Except.ok (nm, store)
      else Except.error VarError.shapeMismatch
    | _ => Except.error VarError.alreadyExists
  | none =>
    match r with
    | ReuseFlag.trueF => Except.error VarError.doesNotExist
    | _ => Except.ok (nm, store ++ [(nm, shape)])

/-- One variable request: full name, shape signature, and the reuse flag
the layer constructor passes (`reuse=False` for the `FC` dense layer,
nothing — i.e. `None` — for every other layer). -/
structure VarRequest where
  nm : String
  shape : ℕ
  flag : ReuseFlag
deriving DecidableEq, Repr

/-- The kernel-variable requests one `_generator` call makes, in order,
for an input of width `width`: the `FC` projection kernel (whose shape
depends on the caller's input width, `name='FC'`, `reuse=False`), then
for each stage the `Deconv_i` and `Conv_i` kernels (shape signature: the
stage's output filter count; no reuse keyword). -/
def generatorVarRequests (A : Archs) (width : ℕ) : List VarRequest :=
  { nm := "Generator/FC/kernel", shape := width, flag := ReuseFlag.falseF } ::
    (List.range (A.generator_model.conv_filters.length - 1)).flatMap
      (fun i =>
        [{ nm := "Generator/Deconv_" ++ toString i ++ "/kernel",
           shape := A.generator_model.conv_filters.getD (i + 1) 0,
           flag := ReuseFlag.noneF },
         { nm := "Generator/Conv_" ++ toString i ++ "/kernel",
           shape := A.generator_model.conv_filters.getD (i + 1) 0,
           flag := ReuseFlag.noneF }])

/-- Run a list of variable requests against a store.  Every request is
made inside the `Generator` scope, entered with `tf.AUTO_REUSE` from the
root (effective flag `inheritReuse autoF noneF`), and each layer's own
flag is combined with that of the enclosing scope.  Returns the variable
names resolved, in order, and the final store. -/
def runVarRequests (store : List (String × ℕ)) :
    List VarRequest → Except VarError (List String × List (String × ℕ))
  | [] => Except.ok ([], store)
  | q :: qs => do
    let eff := inheritReuse q.flag (inheritReuse ReuseFlag.autoF ReuseFlag.noneF)
    let (nm, store2) ← getVariable store q.nm q.shape eff
    let (nms, store3) ← runVarRequests store2 qs
    Except.ok (nm :: nms, store3)

/-- The variables resolved by the two `_generator` invocations of one
training step (line 42 on `face_encodings`, line 52 on the face encoding
of `bitmoji_imgs`; both encodings have width `FACE_ENCODING_SIZE`),
starting from an empty store: the name lists resolved by the first and
the second call. -/
def twoGeneratorCalls (A : Archs) (width : ℕ) :
    Except VarError (List String × List String × List (String × ℕ)) := do
  let (nms1, store1) ← runVarRequests [] (generatorVarRequests A width)
  let (nms2, store2) ← runVarRequests store1 (generatorVarRequests A width)
  Except.ok (nms1, nms2, store2)

/-!  ## Freshness of the encoder noise

`tf.random_normal` (line 143) adds a new random op to the graph on every
call; `_build_graph` invokes `_face_encoder` three times (lines 41, 51
and 52), so three distinct random ops are created.  We model graph
construction as a counter of allocated random-op ids. -/

/-- `tf.random_normal`: allocate a fresh random op, returning its id and
the next counter. -/
def randomNormal (c : ℕ) : ℕ × ℕ :=
  (c, c + 1)

/-- One `_face_encoder` invocation allocates exactly one random op
(line 143). -/
def faceEncoderNoiseCall (c : ℕ) : ℕ × ℕ :=
  randomNormal c

/-- The random-op ids allocated by the three `_face_encoder` invocations
of `_build_graph`, in source order (lines 41, 51, 52). -/
def buildGraphNoiseIds : List ℕ :=
  let (n1, c1) := faceEncoderNoiseCall 0
  let (n2, c2) := faceEncoderNoiseCall c1
  let (n3, _) := faceEncoderNoiseCall c2
  [n1, n2, n3]

/-!  ## Theorems -/

/-- C1: for every training step, `L_gan_d` equals
`mean(log(1 - D(real))) + mean(log(D(real)))` and `L_gan_g` equals
`mean(log(1 - D(fake))) + mean(log(D(fake)))`; each of the two
adversarial losses depends on a single discriminator prediction tensor
only (`L_gan_d` on the real-image predictions, `L_gan_g` on the
fake-image predictions), with no opposing real-vs-fake contrast term. -/
theorem gan_losses_single_prediction_tensor
    (dPredsReal dPredsFake : List ℝ) :
    (ganLossAssembly Real.log dPredsReal dPredsFake).1 =
        mean (dPredsReal.map (fun p => Real.log (1 - p))) +
          mean (dPredsReal.map Real.log) ∧
    (ganLossAssembly Real.log dPredsReal dPredsFake).2 =
        mean (dPredsFake.map (fun p => Real.log (1 - p))) +
          mean (dPredsFake.map Real.log) ∧
    (∀ otherFake : List ℝ,
      (ganLossAssembly Real.log dPredsReal otherFake).1 =
        (ganLossAssembly Real.log dPredsReal dPredsFake).1) ∧
    (∀ otherReal : List ℝ,
      (ganLossAssembly Real.log otherReal dPredsFake).2 =
        (ganLossAssembly Real.log dPredsReal dPredsFake).2) :=
  ⟨rfl, rfl, fun _ => rfl, fun _ => rfl⟩

/-- C10: the discriminator is configured by the same architecture
descriptor as the avatar synthesizer (`archs.avatar_synth_model`): for
every configuration, the discriminator's per-stage filter counts, kernel
widths, strides and padding modes are identical to the synthesizer's. -/
theorem discriminator_mirrors_avatar_synth_descriptor (A : Archs) :
    (discriminatorStages A).map dStageParams =
      (avatarSynthStages A).map stageParams := by
  unfold discriminatorStages avatarSynthStages
  rw [List.map_map, List.map_map]
  rfl

/-- C7: the face encoder's output is
`mean + sqrt(exp(log_var)) * noise` elementwise over the batch and
encoding dimensions, and the three face-encoder invocations of one
training step each construct their own fresh random-normal op (pairwise
distinct nodes, never cached or shared). -/
theorem face_encoder_sampling_formula_and_freshness :
    (∀ (n d : ℕ) (zMean zSigma noise : Fin n → Fin d → ℝ)
        (i : Fin n) (j : Fin d),
      faceEncoderSample Real.exp Real.sqrt zMean zSigma noise i j =
        zMean i j + Real.sqrt (Real.exp (zSigma i j)) * noise i j) ∧
    buildGraphNoiseIds.Nodup :=
  ⟨fun _ _ _ _ _ _ _ => rfl, by decide⟩

/-- C9: the claim of batch-size independence fails on the code.  The
noise tensor of `_face_encoder` has the static shape
`(self.args.batch_size, FACE_ENCODING_SIZE)` (line 143), so the add at
line 142 broadcasts the input batch dimension against the configured
batch size: any input batch whose size differs from the configured one
(both exceeding 1) makes the encoder's output undefined, while a batch of
exactly the configured size is accepted. -/
theorem face_encoder_fixed_noise_batch :
    (∀ batchSize n : ℕ, 1 < n → 1 < batchSize → n ≠ batchSize →
      faceEncoderOutputBatch batchSize n = none) ∧
    faceEncoderOutputBatch 4 4 = some 4 := by
  constructor
  · intro batchSize n h1 h2 h3
    unfold faceEncoderOutputBatch broadcastBatch
    rw [if_neg h3, if_neg (by omega), if_neg (by omega)]
  · decide

/-- Witness for C9: with configured batch size 4, an input batch of 2
face images leaves the face-encoder output undefined. -/
theorem face_encoder_fixed_noise_batch_witness :
    ((1 : ℕ) < 2 ∧ (1 : ℕ) < 4 ∧ (2 : ℕ) ≠ 4) ∧
    faceEncoderOutputBatch 4 2 = none :=
  ⟨by decide,
    face_encoder_fixed_noise_batch.1 4 2 (by decide) (by decide) (by decide)⟩

/-- C2: whenever the avatar synthesizer descriptor has at least one
stage, every `_avatar_synth` invocation with the attribute `self.preds`
unset raises `AttributeError` at the first stage's refinement convolution
(lines 324-325 read `self.preds`, which is never assigned before that
read), and therefore `_build_graph` — which calls `_avatar_synth` on the
parameter-encoder output at line 44 — aborts with that error and produces
no loss tensor. -/
theorem avatar_synth_unset_attribute_error (A : Archs)
    (h : 2 ≤ A.avatar_synth_model.conv_filters.length) :
    (∀ params : TExpr,
      avatarSynth A none params = Except.error PyError.attributeError) ∧
    buildGraphSymbolic A = Except.error PyError.attributeError := by
  have h1 : ∀ params : TExpr,
      avatarSynth A none params = Except.error PyError.attributeError := by
    intro params
    obtain ⟨m, hm⟩ :
        ∃ m, A.avatar_synth_model.conv_filters.length - 1 = m + 1 :=
      ⟨A.avatar_synth_model.conv_filters.length - 2, by omega⟩
    simp only [avatarSynth, hm, List.range_succ_eq_map, List.foldlM_cons,
      avatarSynthIter]
    rfl
  refine ⟨h1, ?_⟩
  simp only [buildGraphSymbolic, h1]
  rfl

/-- Witness for C2: at the representative three-stage configuration,
building the training graph yields the attribute error and no losses. -/
theorem avatar_synth_unset_attribute_error_witness :
    2 ≤ archsEx.avatar_synth_model.conv_filters.length ∧
    buildGraphSymbolic archsEx = Except.error PyError.attributeError :=
  ⟨by decide, (avatar_synth_unset_attribute_error archsEx (by decide)).2⟩

/-- C3: the claim that every avatar-synthesizer layer is non-trainable
fails on the code.  The deconvolution and refinement-convolution layers
do pass `trainable=False` (lines 322 and 334), but the interior
batch-normalization layers (line 339) pass no `trainable=` keyword and
are therefore constructed with TensorFlow's default `trainable=True`, so
their scale/offset weights in the `Avatar_Synth` scope are updated by an
optimizer step. -/
theorem avatar_synth_batchnorm_trainable (A : Archs)
    (h : 3 ≤ A.avatar_synth_model.conv_filters.length) :
    (∀ s ∈ avatarSynthStages A,
      s.deconv.trainable = false ∧ s.refine.trainable = false ∧
        s.dropout = false) ∧
    (∃ s ∈ avatarSynthStages A,
      ∃ l : Layer, s.bn = some l ∧ l.trainable = true) := by
  constructor
  · intro s hs
    simp only [avatarSynthStages, List.mem_map] at hs
    obtain ⟨i, -, rfl⟩ := hs
    exact ⟨rfl, rfl, rfl⟩
  · refine ⟨synthStage A.avatar_synth_model 0, ?_, bnDefault, ?_, rfl⟩
    · exact List.mem_map_of_mem _ (List.mem_range.mpr (by omega))
    · have h0 : 0 < A.avatar_synth_model.conv_filters.length - 2 := by omega
      simp [synthStage, h0]

/-- Witness for C3: at the representative three-stage configuration, the
first avatar-synthesizer stage carries a batch-norm layer constructed
trainable. -/
theorem avatar_synth_batchnorm_trainable_witness :
    3 ≤ archsEx.avatar_synth_model.conv_filters.length ∧
    (∃ s ∈ avatarSynthStages archsEx,
      ∃ l : Layer, s.bn = some l ∧ l.trainable = true) :=
  ⟨by decide, (avatar_synth_batchnorm_trainable archsEx (by decide)).2⟩

/-- Every entry of a softmax output is non-negative. -/
theorem softmax_nonneg (xs : List ℝ) :
    ∀ y ∈ softmax Real.exp xs, 0 ≤ y := by
  intro y hy
  simp only [softmax, List.mem_map] at hy
  obtain ⟨x, -, rfl⟩ := hy
  refine div_nonneg (Real.exp_pos x).le ?_
  exact List.sum_nonneg (by
    intro a ha
    simp only [List.mem_map] at ha
    obtain ⟨t, -, rfl⟩ := ha
    exact (Real.exp_pos t).le)

/-- A softmax over a non-empty segment sums to 1. -/
theorem softmax_sum_one (xs : List ℝ) (hne : xs ≠ []) :
    (softmax Real.exp xs).sum = 1 := by
  have hpos : 0 < (xs.map Real.exp).sum := by
    refine List.sum_pos _ ?_ (by simpa using hne)
    intro a ha
    simp only [List.mem_map] at ha
    obtain ⟨t, -, rfl⟩ := ha
    exact Real.exp_pos t
  have : (softmax Real.exp xs).sum =
      (xs.map Real.exp).sum / (xs.map Real.exp).sum := by
    simp only [softmax, div_eq_mul_inv, ← List.sum_map_mul_right]
  rw [this, div_self (ne_of_gt hpos)]

/-- Every segment produced by `splitSegments` has the length of its
configured size, provided the sizes cover the vector. -/
theorem splitSegments_length {α : Type} :
    ∀ (sizes : List ℕ) (xs : List α), sizes.sum ≤ xs.length →
      ∀ p ∈ (splitSegments sizes xs).zip sizes, p.1.length = p.2
  | [], _, _, _, hp => by simp [splitSegments] at hp
  | n :: ns, xs, hsum, p, hp => by
    simp only [splitSegments, List.zip_cons_cons, List.mem_cons] at hp
    rcases hp with rfl | hp
    · simp only [List.length_take]
      have : n + ns.sum ≤ xs.length := by simpa using hsum
      omega
    · refine splitSegments_length ns (xs.drop n) ?_ p hp
      simp only [List.length_drop]
      have : n + ns.sum ≤ xs.length := by simpa using hsum
      omega

/-- Every segment produced by `splitSegments` is non-empty when the
configured sizes are positive and cover the vector. -/
theorem splitSegments_ne_nil {α : Type} :
    ∀ (sizes : List ℕ) (xs : List α), (∀ s ∈ sizes, 0 < s) →
      sizes.sum ≤ xs.length → ∀ seg ∈ splitSegments sizes xs, seg ≠ []
  | [], _, _, _, _, hseg => by simp [splitSegments] at hseg
  | n :: ns, xs, hpos, hsum, seg, hseg => by
    simp only [splitSegments, List.mem_cons] at hseg
    have hn : n + ns.sum ≤ xs.length := by simpa using hsum
    rcases hseg with rfl | hseg
    · have hpos0 : 0 < n := hpos n (by simp)
      have hlt : (xs.take n).length = n := by
        simp only [List.length_take]
        omega
      intro hnil
      rw [hnil] at hlt
      simp at hlt
      omega
    · exact splitSegments_ne_nil ns (xs.drop n)
        (fun s hs => hpos s (by simp [hs]))
        (by simp only [List.length_drop]; omega) seg hseg

/-- C4: the parameter-encoder head splits the flattened output vector
into the statically configured contiguous segments, softmaxes each
segment independently and concatenates them back in order; consequently
every entry of the output is non-negative, every configured segment sums
to 1, and the overall length is preserved. -/
theorem param_encoder_segment_distributions (sizes : List ℕ)
    (xs : List ℝ) (hpos : ∀ s ∈ sizes, 0 < s)
    (hsum : sizes.sum = xs.length) :
    (∀ y ∈ paramEncoderHead Real.exp sizes xs, 0 ≤ y) ∧
    (∀ seg ∈ splitSegments sizes xs, (softmax Real.exp seg).sum = 1) := by
  constructor
  · intro y hy
    simp only [paramEncoderHead, List.mem_flatten, List.mem_map] at hy
    obtain ⟨l, ⟨seg, -, rfl⟩, hyl⟩ := hy
    exact softmax_nonneg seg y hyl
  · intro seg hseg
    exact softmax_sum_one seg
      (splitSegments_ne_nil sizes xs hpos (le_of_eq hsum) seg hseg)

/-- Witness for C4: the segment configuration `[1, 2]` on a flattened
vector of length 3. -/
theorem param_encoder_segment_distributions_witness :
    ((∀ s ∈ ([1, 2] : List ℕ), 0 < s) ∧
      ([1, 2] : List ℕ).sum = ([(0 : ℝ), 0, 0]).length) ∧
    (∀ y ∈ paramEncoderHead Real.exp [1, 2] [(0 : ℝ), 0, 0], 0 ≤ y) :=
  ⟨⟨by decide, rfl⟩,
    (param_encoder_segment_distributions [1, 2] [(0 : ℝ), 0, 0]
      (by decide) rfl).1⟩

/-- Counterexample to C5: at the representative configuration, the last
layer `_generator` applies to its output is the final refinement
convolution, whose activation is ReLU (line 194) — not tanh.  The tanh
of the final deconvolution (line 176) is not the last activation. -/
theorem generator_last_activation_not_tanh :
    (generatorCompute archsEx).getLast?.map Layer.activation =
        some Activation.relu ∧
    (generatorCompute archsEx).getLast?.map Layer.activation ≠
        some Activation.tanh := by
  decide

/-- C5 (amended): in `_generator`, every deconvolution stage is paired
with a same-resolution (1×1, stride 1) refinement convolution carrying
ReLU activation; every stage but the last applies ReLU at the
deconvolution and is followed by batch normalization and dropout; the
final stage applies tanh at its deconvolution and has no batch norm or
dropout — but its ReLU refinement convolution runs afterwards, so ReLU
(not tanh) is the last activation applied to the generator's output. -/
theorem generator_stage_structure_relu_last (A : Archs)
    (h : 2 ≤ A.generator_model.conv_filters.length) :
    (∀ s ∈ generatorStages A,
      s.refine.width = 1 ∧ s.refine.stride = 1 ∧
        s.refine.filters = s.deconv.filters ∧
        s.refine.activation = Activation.relu) ∧
    (∀ i, i < A.generator_model.conv_filters.length - 2 →
      (genStage A.generator_model i).deconv.activation = Activation.relu ∧
      (genStage A.generator_model i).bn = some bnDefault ∧
      (genStage A.generator_model i).dropout = true) ∧
    ((genStage A.generator_model
        (A.generator_model.conv_filters.length - 2)).deconv.activation =
          Activation.tanh ∧
      (genStage A.generator_model
        (A.generator_model.conv_filters.length - 2)).bn = none ∧
      (genStage A.generator_model
        (A.generator_model.conv_filters.length - 2)).dropout = false) ∧
    (generatorCompute A).getLast?.map Layer.activation =
      some Activation.relu := by
  refine ⟨?_, ?_, ?_, ?_⟩
  · intro s hs
    simp only [generatorStages, List.mem_map] at hs
    obtain ⟨i, -, rfl⟩ := hs
    exact ⟨rfl, rfl, rfl, rfl⟩
  · intro i hi
    have hne : ¬ i = A.generator_model.conv_filters.length - 2 := by omega
    simp [genStage, hne, hi]
  · have hlt : ¬ A.generator_model.conv_filters.length - 2 <
        A.generator_model.conv_filters.length - 2 := by omega
    simp [genStage, hlt]
  · obtain ⟨m, hm⟩ :
        ∃ m, A.generator_model.conv_filters.length - 1 = m + 1 :=
      ⟨A.generator_model.conv_filters.length - 2, by omega⟩
    have hlt : ¬ m < A.generator_model.conv_filters.length - 2 := by omega
    have hstages : generatorStages A =
        ((List.range m).map (genStage A.generator_model)) ++
          [genStage A.generator_model m] := by
      rw [generatorStages, hm, List.range_succ, List.map_append,
        List.map_singleton]
    have hchunk : stageChunk (genStage A.generator_model m) =
        [(genStage A.generator_model m).deconv,
         (genStage A.generator_model m).refine] := by
      simp [stageChunk, genStage, hlt]
    rw [generatorCompute, hstages, List.flatMap_append]
    simp only [List.flatMap_cons, List.flatMap_nil, hchunk,
      List.append_nil]
    rw [show denseFC ::
          (((List.range m).map (genStage A.generator_model)).flatMap
              stageChunk ++
            [(genStage A.generator_model m).deconv,
             (genStage A.generator_model m).refine]) =
        (denseFC ::
          (((List.range m).map (genStage A.generator_model)).flatMap
              stageChunk ++
            [(genStage A.generator_model m).deconv])) ++
          [(genStage A.generator_model m).refine] by simp]
    rw [List.getLast?_concat]
    rfl

/-- Witness for C5: the representative configuration satisfies the
stage-structure facts; in particular ReLU is the generator's last
activation. -/
theorem generator_stage_structure_relu_last_witness :
    2 ≤ archsEx.generator_model.conv_filters.length ∧
    (generatorCompute archsEx).getLast?.map Layer.activation =
      some Activation.relu :=
  ⟨by decide,
    (generator_stage_structure_relu_last archsEx (by decide)).2.2.2⟩

/-- A constant image of shape (1, 1, 2, 1). -/
def constImg (v : ℝ) : Img ℝ 1 1 2 1 :=
  fun _ _ _ _ => v

/-- Counterexample to C8: two generated images with identical
neighbouring-pixel differences (two constant images) have different
`L_tv`, because the zero-padded shift makes the last-column and last-row
terms compare pixels against 0 rather than against a neighbour. -/
theorem l_tv_not_neighbor_difference_function :
    hDiff (constImg 1) = hDiff (constImg 0) ∧
    vDiff (constImg 1) = vDiff (constImg 0) ∧
    lTv Real.sqrt (constImg 1) ≠ lTv Real.sqrt (constImg 0) := by
  refine ⟨?_, ?_, ?_⟩
  · funext i y x k
    simp [hDiff, constImg]
  · funext i y x k
    simp [vDiff, constImg]
  · have h0 : lTv Real.sqrt (constImg 0) = 0 := by
      simp [lTv, tmean, leftShift, upShift, constImg]
    have h1 : lTv Real.sqrt (constImg 1) =
        (Real.sqrt 1 + Real.sqrt 2) / 2 := by
      simp only [lTv, tmean, leftShift, upShift, constImg,
        Fin.sum_univ_two, Fin.sum_univ_one]
      norm_num
    have hpos : 0 < lTv Real.sqrt (constImg 1) := by
      rw [h1]
      positivity
    rw [h0]
    exact ne_of_gt hpos

/-- C8 (amended): `L_tv` is the mean over all pixels of
`sqrt(h² + v²)`, where `h` and `v` are the horizontal and vertical
finite differences of the generated image with the shifted copies
zero-padded at the right and bottom edges: interior terms are
neighbouring-pixel differences, but last-column and last-row terms equal
`0 - pixel`, so `L_tv` also depends on the absolute pixel values at
those edges. -/
theorem l_tv_zero_padded_formula {b h w c : ℕ} (g : Img ℝ b h w c) :
    lTv Real.sqrt g =
      tmean (fun i y x k =>
        Real.sqrt
          ((if hx : (x : ℕ) + 1 < w then
              g i y ⟨(x : ℕ) + 1, hx⟩ k - g i y x k
            else 0 - g i y x k) ^ 2 +
           (if hy : (y : ℕ) + 1 < h then
              g i ⟨(y : ℕ) + 1, hy⟩ x k - g i y x k
            else 0 - g i y x k) ^ 2)) := by
  unfold lTv
  congr 1
  funext i y x k
  simp only [leftShift, upShift]
  rw [apply_dite (fun t : ℝ => t - g i y x k),
    apply_dite (fun t : ℝ => t - g i y x k)]

theorem except_bind_ok {ε α β : Type} (a : α) (k : α → Except ε β) :
    (Except.ok a >>= k) = k a :=
  rfl

theorem except_bind_error {ε α β : Type} (e : ε) (k : α → Except ε β) :
    ((Except.error e : Except ε α) >>= k) = Except.error e :=
  rfl

theorem lookup_append {β : Type} (l l' : List (String × β)) (a : String) :
    (l ++ l').lookup a =
      ((l.lookup a).orElse (fun _ => l'.lookup a)) := by
  induction l with
  | nil => simp [List.lookup]
  | cons p t ih =>
    obtain ⟨k, v⟩ := p
    cases h : a == k with
    | true => simp [List.lookup, h]
    | false => simp [List.lookup, h, ih]

/-- A successful `getVariable` returns the requested name, leaves that
name bound to the requested shape, and preserves every existing
binding. -/
theorem getVariable_ok {store : List (String × ℕ)} {nm : String}
    {shape : ℕ} {r : ReuseFlag} {nm' : String}
    {st' : List (String × ℕ)}
    (h : getVariable store nm shape r = Except.ok (nm', st')) :
    nm' = nm ∧ st'.lookup nm = some shape ∧
      ∀ a v, store.lookup a = some v → st'.lookup a = some v := by
  unfold getVariable at h
  split at h
  case h_1 sh hl =>
    split at h
    · split at h
      case isTrue hs =>
        simp only [Except.ok.injEq, Prod.mk.injEq] at h
        obtain ⟨h1, h2⟩ := h
        subst h1
        subst h2
        exact ⟨rfl, hs ▸ hl, fun a v hv => hv⟩
      case isFalse hs => simp at h
    · split at h
      case isTrue hs =>
        simp only [Except.ok.injEq, Prod.mk.injEq] at h
        obtain ⟨h1, h2⟩ := h
        subst h1
        subst h2
        exact ⟨rfl, hs ▸ hl, fun a v hv => hv⟩
      case isFalse hs => simp at h
    · simp at h
  case h_2 hl =>
    split at h
    · simp at h
    · simp only [Except.ok.injEq, Prod.mk.injEq] at h
      obtain ⟨h1, h2⟩ := h
      subst h1
      subst h2
      refine ⟨rfl, ?_, ?_⟩
      · rw [lookup_append, hl]
        simp [List.lookup]
      · intro a v hv
        rw [lookup_append, hv]
        rfl

/-- A successful run of a request list resolves exactly the requested
names, in order, and preserves every existing binding. -/
theorem runVarRequests_ok :
    ∀ (qs : List VarRequest) (store st' : List (String × ℕ))
      (nms : List String),
      runVarRequests store qs = Except.ok (nms, st') →
      nms = qs.map VarRequest.nm ∧
        ∀ a v, store.lookup a = some v → st'.lookup a = some v := by
  intro qs
  induction qs with
  | nil =>
    intro store st' nms h
    simp only [runVarRequests, Except.ok.injEq, Prod.mk.injEq] at h
    obtain ⟨h1, h2⟩ := h
    subst h1
    subst h2
    exact ⟨rfl, fun a v hv => hv⟩
  | cons q qs ih =>
    intro store st' nms h
    simp only [runVarRequests] at h
    cases hg : getVariable store q.nm q.shape
        (inheritReuse q.flag
          (inheritReuse ReuseFlag.autoF ReuseFlag.noneF)) with
    | error e =>
      rw [hg, except_bind_error] at h
      simp at h
    | ok pr =>
      obtain ⟨nm1, store2⟩ := pr
      rw [hg, except_bind_ok] at h
      cases hr : runVarRequests store2 qs with
      | error e =>
        rw [hr, except_bind_error] at h
        simp at h
      | ok pr2 =>
        obtain ⟨nms0, store3⟩ := pr2
        rw [hr, except_bind_ok] at h
        simp only [Except.ok.injEq, Prod.mk.injEq] at h
        obtain ⟨h1, h2⟩ := h
        subst h1
        subst h2
        obtain ⟨hnm, -, hmono1⟩ := getVariable_ok hg
        obtain ⟨hnms, hmono2⟩ := ih store2 store3 nms0 hr
        subst hnm
        subst hnms
        exact ⟨by simp, fun a v hv => hmono2 a v (hmono1 a v hv)⟩

/-- C6 (amended): the generator's `FC` projection is built under a fixed
name with `reuse=False`, but reuse is inherited from the enclosing
`AUTO_REUSE` scope (a sub-scope cannot disable it), so the projection is
shared across call sites exactly like the downstream layers: any two
successful `_generator` invocations of one step resolve the identical
variable-name list, and an invocation with a *different* input width
fails with a shape conflict on the existing `FC` kernel instead of
receiving a dedicated per-width weight set. -/
theorem generator_projection_sharing (A : Archs) (width : ℕ) :
    (∀ (store st' : List (String × ℕ)) (nms : List String),
      runVarRequests store (generatorVarRequests A width) =
          Except.ok (nms, st') →
      nms = (generatorVarRequests A width).map VarRequest.nm) ∧
    (∀ (nms1 nms2 : List String) (st : List (String × ℕ)),
      twoGeneratorCalls A width = Except.ok (nms1, nms2, st) →
      nms1 = nms2) ∧
    (∀ width2, width2 ≠ width →
      ∀ (nms1 : List String) (st1 : List (String × ℕ)),
        runVarRequests [] (generatorVarRequests A width) =
            Except.ok (nms1, st1) →
        runVarRequests st1 (generatorVarRequests A width2) =
          Except.error VarError.shapeMismatch) := by
  refine ⟨fun store st' nms h => (runVarRequests_ok _ _ _ _ h).1,
    ?_, ?_⟩
  · intro nms1 nms2 st h
    simp only [twoGeneratorCalls] at h
    cases h1 : runVarRequests [] (generatorVarRequests A width) with
    | error e =>
      rw [h1, except_bind_error] at h
      simp at h
    | ok pr1 =>
      obtain ⟨a, s1⟩ := pr1
      rw [h1, except_bind_ok] at h
      cases h2 : runVarRequests s1 (generatorVarRequests A width) with
      | error e =>
        rw [h2, except_bind_error] at h
        simp at h
      | ok pr2 =>
        obtain ⟨bb, s2⟩ := pr2
        rw [h2, except_bind_ok] at h
        simp only [Except.ok.injEq, Prod.mk.injEq] at h
        obtain ⟨rfl, rfl, -⟩ := h
        rw [(runVarRequests_ok _ _ _ _ h1).1,
          (runVarRequests_ok _ _ _ _ h2).1]
  · intro width2 hne nms1 st1 h
    have hfc0 : getVariable [] "Generator/FC/kernel" width
        (inheritReuse ReuseFlag.falseF
          (inheritReuse ReuseFlag.autoF ReuseFlag.noneF)) =
        Except.ok ("Generator/FC/kernel",
          [("Generator/FC/kernel", width)]) := rfl
    simp only [generatorVarRequests, runVarRequests] at h ⊢
    rw [hfc0, except_bind_ok] at h
    have hfcLookup : st1.lookup "Generator/FC/kernel" = some width := by
      cases hr : runVarRequests [("Generator/FC/kernel", width)]
          ((List.range (A.generator_model.conv_filters.length - 1)).flatMap
            (fun i =>
              [{ nm := "Generator/Deconv_" ++ toString i ++ "/kernel",
                 shape := A.generator_model.conv_filters.getD (i + 1) 0,
                 flag := ReuseFlag.noneF },
               { nm := "Generator/Conv_" ++ toString i ++ "/kernel",
                 shape := A.generator_model.conv_filters.getD (i + 1) 0,
                 flag := ReuseFlag.noneF }])) with
      | error e =>
        rw [hr, except_bind_error] at h
        simp at h
      | ok pr =>
        obtain ⟨nms0, st3⟩ := pr
        rw [hr, except_bind_ok] at h
        simp only [Except.ok.injEq, Prod.mk.injEq] at h
        obtain ⟨-, rfl⟩ := h
        exact (runVarRequests_ok _ _ _ _ hr).2 "Generator/FC/kernel"
          width (by simp [List.lookup])
    have hgv : getVariable st1 "Generator/FC/kernel" width2
        (inheritReuse ReuseFlag.falseF
          (inheritReuse ReuseFlag.autoF ReuseFlag.noneF)) =
        Except.error VarError.shapeMismatch := by
      unfold getVariable
      rw [hfcLookup]
      simp only [inheritReuse]
      rw [if_neg (fun hc => hne hc.symm)]
    rw [hgv, except_bind_error]

/-- The `FC` variable resolved by the first `_generator` call of a step. -/
def fcVarOfFirstCall (A : Archs) (w : ℕ) : Option String :=
  match twoGeneratorCalls A w with
  | Except.ok (nms1, _, _) => nms1.head?
  | _ => none

/-- The `FC` variable resolved by the second `_generator` call of a step. -/
def fcVarOfSecondCall (A : Archs) (w : ℕ) : Option String :=
  match twoGeneratorCalls A w with
  | Except.ok (_, nms2, _) => nms2.head?
  | _ => none

/-- The number of variables that exist after the first `_generator` call. -/
def storeSizeAfterOneCall (A : Archs) (w : ℕ) : Option ℕ :=
  match runVarRequests [] (generatorVarRequests A w) with
  | Except.ok (_, st) => some st.length
  | _ => none

/-- The number of variables that exist after both `_generator` calls. -/
def storeSizeAfterTwoCalls (A : Archs) (w : ℕ) : Option ℕ :=
  match twoGeneratorCalls A w with
  | Except.ok (_, _, st) => some st.length
  | _ => none

/-- Counterexample to C6: at the representative configuration (input
width 4096 at both call sites, as both generator inputs are face-encoder
outputs of width `FACE_ENCODING_SIZE`), the two `_generator` invocations
resolve the *same* `Generator/FC/kernel` variable, and the second
invocation creates no variable at all (the store still holds exactly the
7 kernels of the first call): the projection is shared across call
sites, and no per-input-width weight set exists. -/
theorem generator_projection_shared_across_calls :
    fcVarOfFirstCall archsEx 4096 = some "Generator/FC/kernel" ∧
    fcVarOfSecondCall archsEx 4096 = some "Generator/FC/kernel" ∧
    fcVarOfFirstCall archsEx 4096 = fcVarOfSecondCall archsEx 4096 ∧
    storeSizeAfterOneCall archsEx 4096 = some 7 ∧
    storeSizeAfterTwoCalls archsEx 4096 = some 7 :=
  ⟨rfl, rfl, rfl, rfl, rfl⟩

/-- The variable names the first `_generator` call of the representative
configuration resolves, in order. -/
def firstCallNamesEx : List String :=
  ["Generator/FC/kernel",
   "Generator/Deconv_0/kernel", "Generator/Conv_0/kernel",
   "Generator/Deconv_1/kernel", "Generator/Conv_1/kernel",
   "Generator/Deconv_2/kernel", "Generator/Conv_2/kernel"]

/-- The variable store after the first `_generator` call of the
representative configuration. -/
def firstCallStoreEx : List (String × ℕ) :=
  [("Generator/FC/kernel", 4096),
   ("Generator/Deconv_0/kernel", 512), ("Generator/Conv_0/kernel", 512),
   ("Generator/Deconv_1/kernel", 256), ("Generator/Conv_1/kernel", 256),
   ("Generator/Deconv_2/kernel", 3), ("Generator/Conv_2/kernel", 3)]

/-- Witness for C6: the concrete first call succeeds and resolves
exactly the requested names. -/
theorem generator_projection_sharing_witness :
    firstCallNamesEx =
      (generatorVarRequests archsEx 4096).map VarRequest.nm :=
  (generator_projection_sharing archsEx 4096).1 [] firstCallStoreEx
    firstCallNamesEx rfl

end S2B
